import Mathlib

/-!
Verification of the CoAP protocol binding server (`coap-server.ts`).

The development shallowly embeds the server's request router (`handleRequest`),
registry administration (`expose`, `destroy`) and the two observation loops
(property polling via `setInterval`, event push via `subscribeEvent`) as
executable Lean definitions, and proves or refutes the specified properties.

Modelling conventions:
* JS objects/Maps keyed by strings become association lists `List (String × _)`
  preserving insertion order; `Map.get`/object indexing become `List.lookup`.
* The external collaborators (transport engine, content codec, thing runtime,
  address discovery, `slugify`) are modelled at their interface boundary as
  parameters: the codec by the boolean outcome of its supported-media-type
  check and of `contentToValue`, the runtime calls by emitted effects.
* Asynchronous continuation points (pending promises, the interval timer and
  the stream `finish` event) become explicit events consumed by per-observation
  step functions on the single event loop.
-/

namespace CoapServer

/-- A form descriptor attached to an affordance at exposure time
(`new TD.Form(href, type)` plus the assigned `op` list). -/
structure Form where
  href : String
  contentType : String
  op : List String
deriving DecidableEq, Repr

/-- A property affordance: the flags and the `forms` array consulted by
`expose` and by the PUT handler (`property.readOnly`). -/
structure PropertyAffordance where
  readOnly : Bool
  writeOnly : Bool
  observable : Bool
  forms : List Form
deriving DecidableEq, Repr

/-- An action affordance (only its `forms` array matters to this code). -/
structure ActionAffordance where
  forms : List Form
deriving DecidableEq, Repr

/-- An event affordance (only its `forms` array matters to this code). -/
structure EventAffordance where
  forms : List Form
deriving DecidableEq, Repr

/-- An `ExposedThing` as consumed by the server: a stable id, a title, and the
named affordance collections (JS objects modelled as association lists). -/
structure Thing where
  id : String
  title : String
  properties : List (String × PropertyAffordance)
  actions : List (String × ActionAffordance)
  events : List (String × EventAffordance)
deriving DecidableEq, Repr

/-- The `ContentSerdes` registry at its interface boundary: `supports ct`
is the outcome of `getSupportedMediaTypes().indexOf(getMediaType ct) >= 0`
on the raw `Content-Format` value (`none` = option absent), and
`defaultType` is `ContentSerdes.DEFAULT`. -/
structure Codec where
  supports : Option String → Bool
  defaultType : String

/-- A decoded inbound request as seen by `handleRequest`: the CoAP method
code name, the result of `decodeURI(pathname).split("/")`, the raw
`Content-Format` option, the truthiness of `req.payload`, the `Observe`
option, the per-request outcome of `ContentSerdes.contentToValue` as a
function of the effective content type, and the request token. -/
structure Request where
  method : String
  segments : List String
  contentFormat : Option String
  hasPayload : Bool
  observe : Option Nat
  deserOk : Option String → Bool
  token : List Nat

/-- The empty acknowledgement frame assembled for an event observe
registration (lines 481-486: code `0.00`, empty payload, `reset = false`,
`ack = true`, `token = Buffer.alloc(0)`). -/
structure AckFrame where
  code : String
  payloadEmpty : Bool
  reset : Bool
  ack : Bool
  token : List Nat
deriving DecidableEq, Repr

/-- The acknowledgement frame is built from constants only; in particular
its token is `Buffer.alloc(0)`, the empty buffer. -/
def mkObserveAck : AckFrame :=
  { code := "0.00", payloadEmpty := true, reset := false, ack := true, token := [] }

/-- State of one poll-mode property observation (the closure around
`oInterval` and `res` created at line 319). `finishHandlers` counts the
`res.on("finish", ...)` registrations performed inside successful ticks;
`inFlight` counts notification writes handed to the transport whose
transmission has not completed; `sent`/`errorsSent` count delivered data
and error frames. -/
structure PollObs where
  timerActive : Bool
  streamEnded : Bool
  finishHandlers : Nat
  inFlight : Nat
  sent : Nat
  errorsSent : Nat
deriving DecidableEq, Repr

/-- Observation state right after `setInterval` returns. -/
def pollInit : PollObs :=
  { timerActive := true, streamEnded := false, finishHandlers := 0,
    inFlight := 0, sent := 0, errorsSent := 0 }

/-- State of one push-mode event observation (the closure created in the
`Observe === 0` branch): whether the runtime listener is registered, whether
the response stream has ended, and delivered data/error frame counts. -/
structure PushObs where
  listenerRegistered : Bool
  streamEnded : Bool
  sent : Nat
  errorsSent : Nat
deriving DecidableEq, Repr

/-- Observation state right after the acknowledgement was sent, the
listener registered and the `finish` handler installed. -/
def pushInit : PushObs :=
  { listenerRegistered := true, streamEnded := false, sent := 0, errorsSent := 0 }

/-- Externally visible side effects of routing one request: registry reads
and calls into the thing runtime or onto the transport, in program order. -/
inductive Eff
  | registryLookup (slug : String)
  | readProperty (name : String)
  | writeProperty (name : String)
  | invokeAction (name : String)
  | subscribeEvent (name : String)
  | sendAck (frame : AckFrame)
deriving DecidableEq, Repr

/-- The synchronous outcome of routing one request: either an immediate
reply (CoAP code and body as in the source), or a structured continuation —
a listing body, a thing description, a pending asynchronous runtime call, or
a started observation with its initial state. `eventSubscribed` records the
token restored onto the response packet (`res._packet.token :=
res._request.token`) for the subsequent notification frames. -/
inductive RouteOutcome
  | reply (code : String) (body : String)
  | listing (uris : List String)
  | thingDescription (slug : String)
  | readPending (slug name : String)
  | observeStarted (slug name : String) (init : PollObs)
  | writePending (slug name : String)
  | invokePending (slug name : String)
  | eventSubscribed (slug name : String) (respToken : List Nat) (init : PushObs)
deriving DecidableEq, Repr

/-- Result of the content-type admission check at lines 218-234. -/
inductive Admission
  | reject
  | proceed (ct : Option String)
deriving DecidableEq, Repr

/-- Lines 218-234: for PUT/POST, an absent `Content-Format` with a payload
falls back to the codec default; otherwise an unsupported media type is
rejected with 4.15 before any routing. Other methods pass through. -/
def admission (codec : Codec) (req : Request) : Admission :=
  if req.method = "PUT" ∨ req.method = "POST" then
    if req.contentFormat = none ∧ req.hasPayload = true then
      .proceed (some codec.defaultType)
    else if codec.supports req.contentFormat = false then
      .reject
    else
      .proceed req.contentFormat
  else
    .proceed req.contentFormat

/-- The administrative context a request is routed against: the registry,
the codec, the discoverable addresses, the port and `encodeURIComponent`. -/
structure ServerCtx where
  things : List (String × Thing)
  codec : Codec
  addresses : List String
  port : Int
  encodeF : String → String

/-- Lines 244-259: the listing pushes one URI per (address, registered slug)
pair, addresses outermost. -/
def listingURIs (srv : ServerCtx) : List String :=
  srv.addresses.foldl
    (fun acc address =>
      acc ++ srv.things.map
        (fun p => "coap://" ++ address ++ ":" ++ toString srv.port ++ "/" ++ srv.encodeF p.1))
    []

/-- Lines 286-360 and 362-405: property sub-resource handling. GET without
an `Observe` option issues a one-shot read; GET with any `Observe` option
starts the poll loop. PUT first checks `readOnly`, then deserializes, then
issues the write; other methods get 4.05. -/
def routeProperty (slug name : String) (prop : PropertyAffordance) (ct : Option String)
    (req : Request) : RouteOutcome × List Eff :=
  if req.method = "GET" then
    if req.observe = none then
      (.readPending slug name, [.registryLookup slug, .readProperty name])
    else
      (.observeStarted slug name pollInit, [.registryLookup slug])
  else if req.method = "PUT" then
    if prop.readOnly = false then
      if req.deserOk ct then
        (.writePending slug name, [.registryLookup slug, .writeProperty name])
      else
        (.reply "4.00" "Invalid Data", [.registryLookup slug])
    else
      (.reply "4.00" "Property readOnly", [.registryLookup slug])
  else
    (.reply "4.05" "Method Not Allowed", [.registryLookup slug])

/-- Lines 414-468: action sub-resource handling (POST only). -/
def routeAction (slug name : String) (ct : Option String) (req : Request) :
    RouteOutcome × List Eff :=
  if req.method = "POST" then
    if req.deserOk ct then
      (.invokePending slug name, [.registryLookup slug, .invokeAction name])
    else
      (.reply "4.00" "Invalid Input Data", [.registryLookup slug])
  else
    (.reply "4.05" "Method Not Allowed", [.registryLookup slug])

/-- Lines 477-599: event sub-resource handling. GET with `Observe === 0`
sends the empty acknowledgement frame, registers the runtime listener and
starts the push observation; `Observe > 0` is answered 5.01; GET without
`Observe` is answered 4.00; other methods 4.05. -/
def routeEvent (slug name : String) (req : Request) : RouteOutcome × List Eff :=
  if req.method = "GET" then
    match req.observe with
    | some 0 =>
        (.eventSubscribed slug name req.token pushInit,
         [.registryLookup slug, .sendAck mkObserveAck, .subscribeEvent name])
    | some (_ + 1) =>
        (.reply "5.01" "node-coap issue: no GET cancellation, send RST", [.registryLookup slug])
    | none =>
        (.reply "4.00" "No Observe Option", [.registryLookup slug])
  else
    (.reply "4.05" "Method Not Allowed", [.registryLookup slug])

/-- Lines 270-603: dispatch below a resolved thing. A path of exactly two
segments (or an empty third segment) is the thing root; otherwise the third
segment selects the affordance directory and the fourth names the
affordance; a missing affordance falls through to 4.04. -/
def routeResource (thing : Thing) (slug : String) (ct : Option String) (req : Request) :
    RouteOutcome × List Eff :=
  if req.segments.length = 2 ∨ req.segments[2]? = some "" then
    if req.method = "GET" then
      (.thingDescription slug, [.registryLookup slug])
    else
      (.reply "4.05" "Method Not Allowed", [.registryLookup slug])
  else if req.segments[2]? = some "properties" then
    match req.segments[3]?.bind (fun n => thing.properties.lookup n) with
    | some prop => routeProperty slug (req.segments[3]?.getD "") prop ct req
    | none => (.reply "4.04" "Not Found", [.registryLookup slug])
  else if req.segments[2]? = some "actions" then
    match req.segments[3]?.bind (fun n => thing.actions.lookup n) with
    | some _ => routeAction slug (req.segments[3]?.getD "") ct req
    | none => (.reply "4.04" "Not Found", [.registryLookup slug])
  else if req.segments[2]? = some "events" then
    match req.segments[3]?.bind (fun n => thing.events.lookup n) with
    | some _ => routeEvent slug (req.segments[3]?.getD "") req
    | none => (.reply "4.04" "Not Found", [.registryLookup slug])
  else
    (.reply "4.04" "Not Found", [.registryLookup slug])

/-- Lines 239-609: path dispatch. An empty first segment is the listing;
otherwise the first segment selects a registered thing, an unknown slug
answering 4.04. -/
def route (srv : ServerCtx) (ct : Option String) (req : Request) : RouteOutcome × List Eff :=
  if req.segments[1]? = some "" then
    if req.method = "GET" then
      (.listing (listingURIs srv), [])
    else
      (.reply "4.05" "Method Not Allowed", [])
  else
    match req.segments[1]? with
    | none => (.reply "4.04" "Not Found", [])
    | some slug =>
      match srv.things.lookup slug with
      | some thing => routeResource thing slug ct req
      | none => (.reply "4.04" "Not Found", [.registryLookup slug])

/-- Lines 199-610: the full per-request handler — content-type admission
first (with no effects on rejection), then routing. -/
def handleRequest (srv : ServerCtx) (req : Request) : RouteOutcome × List Eff :=
  match admission srv.codec req with
  | .reject => (.reply "4.15" "Unsupported Media Type", [])
  | .proceed ct => route srv ct req

/-- Lines 183-189: the `destroy` loop over the registry keys in insertion
order — every entry whose thing id matches is deleted and remembered.
Returns the remaining registry and `removedThing !== undefined`. -/
def destroyLoop (tid : String) : List (String × Thing) → List (String × Thing) × Bool
  | [] => ([], false)
  | p :: rest =>
    if p.2.id = tid then ((destroyLoop tid rest).1, true)
    else (p :: (destroyLoop tid rest).1, (destroyLoop tid rest).2)

/-- Lines 179-197: `destroy(thingId)` — scan, delete matches, resolve with
whether a removal occurred. -/
def destroy (things : List (String × Thing)) (tid : String) : List (String × Thing) × Bool :=
  destroyLoop tid things

/-- Lines 125-138: the `op` list assigned to a property form from its
flags, with the observe operations appended when observable. -/
def formOpsForProperty (p : PropertyAffordance) : List String :=
  let base :=
    if p.readOnly then ["readproperty"]
    else if p.writeOnly then ["writeproperty"]
    else ["readproperty", "writeproperty"]
  if p.observable then base ++ ["observeproperty", "unobserveproperty"] else base

/-- Lines 121-169: for one `base` href and one offered media type, append a
form to every property, action and event of the thing. -/
def addFormsForBase (base typ : String) (encodeF : String → String) (t : Thing) : Thing :=
  { t with
    properties := t.properties.map (fun p =>
      (p.1, { p.2 with forms := p.2.forms ++
        [⟨base ++ "/properties/" ++ encodeF p.1, typ, formOpsForProperty p.2⟩] })),
    actions := t.actions.map (fun a =>
      (a.1, { a.2 with forms := a.2.forms ++
        [⟨base ++ "/actions/" ++ encodeF a.1, typ, ["invokeaction"]⟩] })),
    events := t.events.map (fun e =>
      (e.1, { e.2 with forms := e.2.forms ++
        [⟨base ++ "/events/" ++ encodeF e.1, typ, ["subscribeevent", "unsubscribeevent"]⟩] })) }

/-- Lines 116-171: the nested exposure loops — addresses outermost, offered
media types next, affordances innermost. -/
def addAllForms (addresses offered : List String) (port : Int) (encodeF : String → String)
    (urlPath : String) (t : Thing) : Thing :=
  addresses.foldl
    (fun t1 addr =>
      offered.foldl
        (fun t2 typ =>
          addFormsForBase ("coap://" ++ addr ++ ":" ++ toString port ++ "/" ++ encodeF urlPath)
            typ encodeF t2)
        t1)
    t

/-- Result of `expose`: the new registry, the (possibly form-augmented)
thing, and whether the returned promise resolves. -/
structure ExposeResult where
  things : List (String × Thing)
  thing : Thing
  resolved : Bool
deriving Repr

/-- Lines 100-177: `expose(thing)` — slugify the title, disambiguate a
colliding slug, and only when the port query does not report `-1` store the
thing and synthesize its forms; the promise resolves in every case.
`slugifyF` and `uniqueF` stand for the external `slugify` and
`Helpers.generateUniqueName`; `port` is the result of `getPort()`. -/
def expose (slugifyF uniqueF encodeF : String → String) (addresses offered : List String)
    (port : Int) (things : List (String × Thing)) (thing : Thing) : ExposeResult :=
  let up0 := slugifyF thing.title
  let urlPath := if (things.lookup up0).isSome then uniqueF up0 else up0
  if port ≠ -1 then
    let thing2 := addAllForms addresses offered port encodeF urlPath thing
    { things := things ++ [(urlPath, thing2)], thing := thing2, resolved := true }
  else
    { things := things, thing := thing, resolved := true }

/-- Events consumed by a poll-mode observation on the event loop: a timer
tick whose read-and-serialize chain settles with the given outcome, the
transport completing one in-flight notification write, and the response
stream's finish signal (peer disconnect). -/
inductive PollEvent
  | tick (readOk : Bool)
  | writeDone
  | finish
deriving DecidableEq, Repr

/-- Observable actions of one poll-mode observation step. -/
inductive PollEff
  | readProperty
  | serialize
  | writeNotif
  | errorEnd
deriving DecidableEq, Repr

/-- `res.end()` semantics for the poll observation: the stream finishes,
which fires the registered finish handlers; each handler (lines 338-347)
clears the interval and ends the stream again. With no handler registered
nothing further happens. -/
def pollEndStream (s : PollObs) : PollObs :=
  if s.finishHandlers > 0 then
    { s with streamEnded := true, timerActive := false }
  else
    { s with streamEnded := true }

/-- One event-loop step of the poll observation (lines 319-359).
A tick with the timer active always issues the read; on success it
serializes and writes the next notification — delivered only while the
stream is open — and registers another finish handler; on failure it sets
code 5.00 and ends the stream with the error message. The transport finish
signal runs whatever finish handlers exist. -/
def pollStep (s : PollObs) (e : PollEvent) : PollObs × List PollEff :=
  match e with
  | .tick readOk =>
    if s.timerActive = false then (s, [])
    else if readOk then
      ({ s with
          sent := if s.streamEnded then s.sent else s.sent + 1,
          inFlight := if s.streamEnded then s.inFlight else s.inFlight + 1,
          finishHandlers := s.finishHandlers + 1 },
       [PollEff.readProperty, PollEff.serialize] ++
         (if s.streamEnded then [] else [PollEff.writeNotif]))
    else
      (pollEndStream
        { s with errorsSent := if s.streamEnded then s.errorsSent else s.errorsSent + 1 },
       [PollEff.readProperty, PollEff.errorEnd])
  | .writeDone => ({ s with inFlight := s.inFlight - 1 }, [])
  | .finish => (pollEndStream s, [])

/-- Fold a poll observation over a trace of events. -/
def pollRun (s : PollObs) : List PollEvent → PollObs
  | [] => s
  | e :: es => pollRun (pollStep s e).1 es

/-- Events consumed by a push-mode observation: a runtime event callback
whose serialization settles with the given outcome, the `subscribeEvent`
promise settling, and the response stream's finish signal. -/
inductive PushEvent
  | eventData (serOk : Bool)
  | subscribeSettled (ok : Bool)
  | finish
deriving DecidableEq, Repr

/-- Observable actions of one push-mode observation step. -/
inductive PushEff
  | writeNotif
  | errorEnd
  | unsubscribeEvent
deriving DecidableEq, Repr

/-- `res.end()` semantics for the push observation: the stream finishes and
the finish handler installed at line 564 unregisters the runtime listener. -/
def pushEndStream (s : PushObs) : PushObs :=
  { s with streamEnded := true, listenerRegistered := false }

/-- One event-loop step of the push observation (lines 494-575). A runtime
callback only runs while the listener is registered; on serialization
success the notification is written (delivered while the stream is open),
on failure code 5.00 is set and the stream is ended, firing the finish
handler which unregisters the listener. The promise settling ends the
stream either way, and the transport finish signal does the same. -/
def pushStep (s : PushObs) (e : PushEvent) : PushObs × List PushEff :=
  match e with
  | .eventData serOk =>
    if s.listenerRegistered = false then (s, [])
    else if serOk then
      if s.streamEnded then (s, [])
      else ({ s with sent := s.sent + 1 }, [PushEff.writeNotif])
    else
      (pushEndStream
        { s with errorsSent := if s.streamEnded then s.errorsSent else s.errorsSent + 1 },
       [PushEff.errorEnd, PushEff.unsubscribeEvent])
  | .subscribeSettled _ => (pushEndStream s, [PushEff.unsubscribeEvent])
  | .finish => (pushEndStream s, [PushEff.unsubscribeEvent])

/-- Fold a push observation over a trace of events. -/
def pushRun (s : PushObs) : List PushEvent → PushObs
  | [] => s
  | e :: es => pushRun (pushStep s e).1 es

/-! ### Concrete fixtures used by witnesses and counterexamples -/

/-- A codec supporting exactly `application/json`, which is its default. -/
def sampleCodec : Codec :=
  { supports := fun ct => ct == some "application/json", defaultType := "application/json" }

/-- A writable, observable boolean property. -/
def sampleProp : PropertyAffordance :=
  { readOnly := false, writeOnly := false, observable := true, forms := [] }

/-- A read-only property. -/
def roProp : PropertyAffordance :=
  { readOnly := true, writeOnly := false, observable := false, forms := [] }

/-- A sample exposed thing with one writable and one read-only property,
one action and one event. -/
def sampleThing : Thing :=
  { id := "urn:lamp", title := "Lamp",
    properties := [("on", sampleProp), ("status", roProp)],
    actions := [("toggle", ⟨[]⟩)],
    events := [("overheated", ⟨[]⟩)] }

/-- A sample server context with the sample thing registered at slug
`lamp`. -/
def sampleSrv : ServerCtx :=
  { things := [("lamp", sampleThing)], codec := sampleCodec,
    addresses := ["127.0.0.1"], port := 5683, encodeF := fun s => s }

/-- A GET request template used to build concrete requests. -/
def baseReq : Request :=
  { method := "GET", segments := ["", "lamp"], contentFormat := none,
    hasPayload := false, observe := none, deserOk := fun _ => true, token := [] }

/-! ### Helper lemmas on the observation machines and the registry -/

theorem pollStep_of_ended (s : PollObs) (e : PollEvent) (h : s.streamEnded = true) :
    (pollStep s e).1.streamEnded = true ∧ (pollStep s e).1.sent = s.sent := by
  cases e with
  | tick readOk =>
    cases readOk with
    | false =>
      simp [pollStep, pollEndStream, h]
      split
      · simp [h]
      · split <;> simp [h]
    | true =>
      simp [pollStep, h]
      split <;> simp [h]
  | writeDone => simp [pollStep, h]
  | finish =>
    simp only [pollStep, pollEndStream]
    split <;> simp [h]

theorem pollRun_of_ended (s : PollObs) (tr : List PollEvent) (h : s.streamEnded = true) :
    (pollRun s tr).streamEnded = true ∧ (pollRun s tr).sent = s.sent := by
  induction tr generalizing s with
  | nil => exact ⟨h, rfl⟩
  | cons e es ih =>
    have h1 := pollStep_of_ended s e h
    have h2 := ih (pollStep s e).1 h1.1
    exact ⟨h2.1, by simpa [pollRun, h2.2] using h1.2⟩

theorem pushStep_of_unregistered (s : PushObs) (e : PushEvent)
    (h : s.listenerRegistered = false) :
    (pushStep s e).1.listenerRegistered = false ∧ (pushStep s e).1.sent = s.sent := by
  cases e with
  | eventData serOk => simp [pushStep, h]
  | subscribeSettled ok => simp [pushStep, pushEndStream]
  | finish => simp [pushStep, pushEndStream]

theorem pushRun_of_unregistered (s : PushObs) (tr : List PushEvent)
    (h : s.listenerRegistered = false) :
    (pushRun s tr).listenerRegistered = false ∧ (pushRun s tr).sent = s.sent := by
  induction tr generalizing s with
  | nil => exact ⟨h, rfl⟩
  | cons e es ih =>
    have h1 := pushStep_of_unregistered s e h
    have h2 := ih (pushStep s e).1 h1.1
    exact ⟨h2.1, by simpa [pushRun, h2.2] using h1.2⟩

theorem destroyLoop_eq_filter (tid : String) (ts : List (String × Thing)) :
    (destroyLoop tid ts).1 = ts.filter (fun p => p.2.id != tid) := by
  induction ts with
  | nil => rfl
  | cons p rest ih =>
    by_cases hp : p.2.id = tid <;> simp [destroyLoop, hp, ih, List.filter_cons]

theorem destroyLoop_found_iff (tid : String) (ts : List (String × Thing)) :
    (destroyLoop tid ts).2 = true ↔ ∃ p ∈ ts, p.2.id = tid := by
  induction ts with
  | nil => simp [destroyLoop]
  | cons p rest ih =>
    by_cases hp : p.2.id = tid <;> simp [destroyLoop, hp, ih]

/-! ### Claim C1 -/

/-- C1 counterexample: the claim states that a tick whose previous
notification is still in flight is skipped. In the code the interval
handler has no in-flight gate: from the initial state, after one successful
tick (one write in flight, not yet completed), a second tick again reads,
serializes and writes, leaving two writes in flight. -/
theorem C1_counterexample_no_tick_skip :
    (pollStep pollInit (.tick true)).1.inFlight = 1 ∧
    (pollStep (pollStep pollInit (.tick true)).1 (.tick true)).2 =
      [PollEff.readProperty, PollEff.serialize, PollEff.writeNotif] ∧
    (pollStep (pollStep pollInit (.tick true)).1 (.tick true)).1.inFlight = 2 := by
  decide

/-- C1 (amended): while the timer is active, every successful tick of a
poll-mode observation reads the property and serializes, and writes the
notification whenever the stream is open, regardless of how many previous
notification writes are still in flight; the in-flight count grows without
bound rather than being gated at one. -/
theorem C1_every_tick_processes (s : PollObs) (h : s.timerActive = true) :
    (pollStep s (.tick true)).2 =
      [PollEff.readProperty, PollEff.serialize] ++
        (if s.streamEnded then [] else [PollEff.writeNotif]) ∧
    (pollStep s (.tick true)).1.inFlight =
      (if s.streamEnded then s.inFlight else s.inFlight + 1) := by
  simp [pollStep, h]

/-- C1 witness: a state with one write already in flight still fully
processes the next tick. -/
theorem C1_every_tick_processes_witness :
    (pollStep ⟨true, false, 1, 1, 1, 0⟩ (.tick true)).2 =
      [PollEff.readProperty, PollEff.serialize, PollEff.writeNotif] ∧
    (pollStep ⟨true, false, 1, 1, 1, 0⟩ (.tick true)).1.inFlight = 2 := by
  simpa using C1_every_tick_processes ⟨true, false, 1, 1, 1, 0⟩ rfl

/-! ### Claim C2 -/

/-- C2: the claim says a transport finish signal cancels the periodic
timer at any time, including before the first notification. In the code the
finish handler that calls `clearInterval` is only registered inside a
successful tick's continuation (line 338), so a finish signal arriving
before the first successful tick leaves the timer active: the stream ends
(so nothing further is delivered), yet the next tick still runs the
property read and serialization — the interval is never cleared. -/
theorem C2_finish_before_first_success :
    (pollStep pollInit .finish).1.timerActive = true ∧
    (pollStep pollInit .finish).1.streamEnded = true ∧
    (pollStep (pollStep pollInit .finish).1 (.tick true)).2 =
      [PollEff.readProperty, PollEff.serialize] ∧
    (pollStep (pollStep pollInit .finish).1 (.tick true)).1.timerActive = true := by
  decide

/-! ### Claim C3 -/

/-- C3 counterexample: the claim states that a failed tick emits one error
notification and the timer keeps producing notifications on later ticks. In
the code the error branch calls `res.end(err.message)` (line 357), ending
the stream: from the initial state a failed first tick emits the error and
ends the stream, and the two following successful ticks deliver zero
notifications. -/
theorem C3_counterexample_error_tick :
    (pollStep pollInit (.tick false)).1.errorsSent = 1 ∧
    (pollStep pollInit (.tick false)).1.streamEnded = true ∧
    (pollRun pollInit [.tick false, .tick true, .tick true]).sent = 0 := by
  decide

/-- C3 (amended): a failed read or serialization on a tick of an active,
open poll observation emits exactly one error notification and ends the
response stream, terminating the observation: no subsequent trace of events
ever delivers another data notification on it. -/
theorem C3_error_tick_ends_observation (s : PollObs) (tr : List PollEvent)
    (h1 : s.timerActive = true) (h2 : s.streamEnded = false) :
    (pollStep s (.tick false)).2 = [PollEff.readProperty, PollEff.errorEnd] ∧
    (pollStep s (.tick false)).1.errorsSent = s.errorsSent + 1 ∧
    (pollStep s (.tick false)).1.streamEnded = true ∧
    (pollRun (pollStep s (.tick false)).1 tr).sent = s.sent := by
  have hsE : (pollStep s (.tick false)).1.streamEnded = true := by
    simp [pollStep, pollEndStream, h1]
    split <;> simp
  have hsS : (pollStep s (.tick false)).1.sent = s.sent := by
    simp [pollStep, pollEndStream, h1]
    split <;> simp
  refine ⟨by simp [pollStep, h1], ?_, hsE, ?_⟩
  · simp [pollStep, pollEndStream, h1, h2]
    split <;> simp
  · have hrun := pollRun_of_ended (pollStep s (.tick false)).1 tr hsE
    rw [hrun.2, hsS]

/-- C3 witness: from the initial observation state, a failed tick followed
by a successful one delivers no data notification. -/
theorem C3_error_tick_ends_observation_witness :
    (pollStep pollInit (.tick false)).2 = [PollEff.readProperty, PollEff.errorEnd] ∧
    (pollStep pollInit (.tick false)).1.errorsSent = 1 ∧
    (pollStep pollInit (.tick false)).1.streamEnded = true ∧
    (pollRun (pollStep pollInit (.tick false)).1 [.tick true]).sent = 0 := by
  simpa using C3_error_tick_ends_observation pollInit [.tick true] rfl rfl

/-! ### Routing reduction helpers -/

theorem length_ne_two_of_getElem_two {l : List String} {x : String}
    (h : l[2]? = some x) : ¬ l.length = 2 := by
  intro hl
  have h2 : l[2]? = none := List.getElem?_eq_none (by omega)
  rw [h2] at h
  simp at h

theorem handleRequest_of_proceed (srv : ServerCtx) (req : Request) (ct : Option String)
    (hadm : admission srv.codec req = .proceed ct) :
    handleRequest srv req = route srv ct req := by
  simp [handleRequest, hadm]

theorem route_of_lookup (srv : ServerCtx) (ct : Option String) (req : Request)
    (slug : String) (thing : Thing)
    (hs1 : req.segments[1]? = some slug) (hne : slug ≠ "")
    (hth : srv.things.lookup slug = some thing) :
    route srv ct req = routeResource thing slug ct req := by
  simp [route, hs1, hne, hth]

theorem routeResource_properties (thing : Thing) (slug : String) (ct : Option String)
    (req : Request) (name : String) (prop : PropertyAffordance)
    (hs2 : req.segments[2]? = some "properties")
    (hs3 : req.segments[3]? = some name)
    (hprop : thing.properties.lookup name = some prop) :
    routeResource thing slug ct req = routeProperty slug name prop ct req := by
  have hlen := length_ne_two_of_getElem_two hs2
  simp [routeResource, hs2, hs3, hprop, hlen]

theorem routeResource_events (thing : Thing) (slug : String) (ct : Option String)
    (req : Request) (name : String) (ev : EventAffordance)
    (hs2 : req.segments[2]? = some "events")
    (hs3 : req.segments[3]? = some name)
    (hev : thing.events.lookup name = some ev) :
    routeResource thing slug ct req = routeEvent slug name req := by
  have hlen := length_ne_two_of_getElem_two hs2
  simp [routeResource, hs2, hs3, hev, hlen]

/-! ### Claim C4 -/

/-- C4: for PUT/POST, a present but unsupported content type is rejected
with 4.15 with no effects at all — no registry lookup, no runtime call;
a missing content type with a payload present makes processing continue
with the codec's default media type assumed. -/
theorem C4_content_type_admission (srv : ServerCtx) (req : Request) (c : String)
    (hm : req.method = "PUT" ∨ req.method = "POST") :
    (req.contentFormat = some c → srv.codec.supports (some c) = false →
      handleRequest srv req = (.reply "4.15" "Unsupported Media Type", [])) ∧
    (req.contentFormat = none → req.hasPayload = true →
      admission srv.codec req = .proceed (some srv.codec.defaultType) ∧
      handleRequest srv req = route srv (some srv.codec.defaultType) req) := by
  constructor
  · intro hct hsupp
    have hadm : admission srv.codec req = .reject := by
      unfold admission
      rw [if_pos hm, hct]
      simp [hsupp]
    simp [handleRequest, hadm]
  · intro hct hpl
    have hadm : admission srv.codec req = .proceed (some srv.codec.defaultType) := by
      unfold admission
      rw [if_pos hm]
      simp [hct, hpl]
    exact ⟨hadm, by simp [handleRequest, hadm]⟩

/-- A PUT carrying an unsupported content type, used for the C4 witness. -/
def putBadCT : Request :=
  { baseReq with
    method := "PUT"
    segments := ["", "lamp", "properties", "on"]
    contentFormat := some "text/weird"
    hasPayload := true }

/-- A PUT with a payload but no content-type option, used for the C4
witness. -/
def putNoCT : Request :=
  { baseReq with
    method := "PUT"
    segments := ["", "lamp", "properties", "on"]
    contentFormat := none
    hasPayload := true }

/-- C4 witness: concrete requests exercising both admission branches. -/
theorem C4_content_type_admission_witness :
    handleRequest sampleSrv putBadCT = (.reply "4.15" "Unsupported Media Type", []) ∧
    admission sampleSrv.codec putNoCT = .proceed (some "application/json") ∧
    handleRequest sampleSrv putNoCT = route sampleSrv (some "application/json") putNoCT := by
  refine ⟨(C4_content_type_admission sampleSrv putBadCT "text/weird" (Or.inl rfl)).1 rfl
      (by decide), ?_, ?_⟩
  · exact ((C4_content_type_admission sampleSrv putNoCT "x" (Or.inl rfl)).2 rfl rfl).1
  · exact ((C4_content_type_admission sampleSrv putNoCT "x" (Or.inl rfl)).2 rfl rfl).2

/-! ### Claim C5 -/

/-- A POST with an unsupported content type aimed at an existing event. -/
def evilPost : Request :=
  { baseReq with
    method := "POST"
    segments := ["", "lamp", "events", "overheated"]
    contentFormat := some "text/weird"
    hasPayload := true }

/-- C5 counterexample: the claim states that GET-with-register,
GET-with-cancel, GET-without-observe and non-GET (MethodNotAllowed)
partition all requests addressing an existing event. A POST carrying an
unsupported content type addresses the existing event yet is answered 4.15
UnsupportedMediaType by the admission check, a fifth outcome. -/
theorem C5_counterexample_partition :
    (sampleSrv.things.lookup "lamp").isSome = true ∧
    (sampleThing.events.lookup "overheated").isSome = true ∧
    evilPost.segments = ["", "lamp", "events", "overheated"] ∧
    evilPost.method ≠ "GET" ∧
    handleRequest sampleSrv evilPost = (.reply "4.15" "Unsupported Media Type", []) := by
  decide

/-- C5 (amended): for every request addressing an existing event of an
existing thing that passes the PUT/POST content-type admission check, the
four outcomes partition the requests: GET with observe-register starts a
push subscription, GET with an observe-cancel flag is answered 5.01
NotImplemented, GET without observe is answered 4.00 BadRequest, and any
other method is answered 4.05 MethodNotAllowed. A PUT/POST with an
unsupported content type is instead rejected up front with 4.15. -/
theorem C5_event_request_partition (srv : ServerCtx) (req : Request) (slug : String)
    (thing : Thing) (name : String) (ev : EventAffordance) (ct : Option String) (n : Nat)
    (hs1 : req.segments[1]? = some slug) (hne : slug ≠ "")
    (hth : srv.things.lookup slug = some thing)
    (hs2 : req.segments[2]? = some "events")
    (hs3 : req.segments[3]? = some name)
    (hev : thing.events.lookup name = some ev)
    (hadm : admission srv.codec req = .proceed ct) :
    (req.method = "GET" → req.observe = some 0 →
      handleRequest srv req =
        (.eventSubscribed slug name req.token pushInit,
         [.registryLookup slug, .sendAck mkObserveAck, .subscribeEvent name])) ∧
    (req.method = "GET" → req.observe = some (n + 1) →
      handleRequest srv req =
        (.reply "5.01" "node-coap issue: no GET cancellation, send RST",
         [.registryLookup slug])) ∧
    (req.method = "GET" → req.observe = none →
      handleRequest srv req = (.reply "4.00" "No Observe Option", [.registryLookup slug])) ∧
    (req.method ≠ "GET" →
      handleRequest srv req = (.reply "4.05" "Method Not Allowed", [.registryLookup slug])) := by
  have hred : handleRequest srv req = routeEvent slug name req := by
    rw [handleRequest_of_proceed srv req ct hadm,
        route_of_lookup srv ct req slug thing hs1 hne hth,
        routeResource_events thing slug ct req name ev hs2 hs3 hev]
  refine ⟨?_, ?_, ?_, ?_⟩
  · intro hm hobs
    rw [hred]
    simp [routeEvent, hm, hobs]
  · intro hm hobs
    rw [hred]
    simp [routeEvent, hm, hobs]
  · intro hm hobs
    rw [hred]
    simp [routeEvent, hm, hobs]
  · intro hm
    rw [hred]
    simp [routeEvent, hm]

/-- A GET observe-register request for the sample event carrying a
non-empty token. -/
def obsRegReq : Request :=
  { baseReq with
    segments := ["", "lamp", "events", "overheated"]
    observe := some 0
    token := [1, 2] }

/-- C5 witness: the observe-register branch on concrete data. -/
theorem C5_event_request_partition_witness :
    handleRequest sampleSrv obsRegReq =
      (.eventSubscribed "lamp" "overheated" [1, 2] pushInit,
       [.registryLookup "lamp", .sendAck mkObserveAck, .subscribeEvent "overheated"]) := by
  have h := C5_event_request_partition sampleSrv obsRegReq "lamp" sampleThing "overheated"
    ⟨[]⟩ none 0 rfl (by decide) (by decide) rfl rfl (by decide) (by decide)
  simpa using h.1 rfl rfl

/-! ### Claim C6 -/

/-- C6: in a push-mode event subscription with the listener registered and
the stream open, a serialization failure on an event callback emits one
error notification (5.00, `res.end`) and terminates the subscription — the
finish handler unregisters the runtime listener and no later trace of
events ever delivers another data notification; and the transport finish
signal by itself unregisters the listener and ends the stream. -/
theorem C6_push_error_terminates (s : PushObs) (tr : List PushEvent)
    (hreg : s.listenerRegistered = true) (hopen : s.streamEnded = false) :
    (pushStep s (.eventData false)).2 = [PushEff.errorEnd, PushEff.unsubscribeEvent] ∧
    (pushStep s (.eventData false)).1.errorsSent = s.errorsSent + 1 ∧
    (pushStep s (.eventData false)).1.listenerRegistered = false ∧
    (pushStep s (.eventData false)).1.streamEnded = true ∧
    (pushRun (pushStep s (.eventData false)).1 tr).sent = s.sent ∧
    (pushStep s .finish).2 = [PushEff.unsubscribeEvent] ∧
    (pushStep s .finish).1.listenerRegistered = false ∧
    (pushStep s .finish).1.streamEnded = true := by
  have h1 : (pushStep s (.eventData false)).1 =
      { listenerRegistered := false, streamEnded := true, sent := s.sent,
        errorsSent := s.errorsSent + 1 } := by
    simp [pushStep, pushEndStream, hreg, hopen]
  have h2 := pushRun_of_unregistered (pushStep s (.eventData false)).1 tr (by rw [h1])
  refine ⟨by simp [pushStep, hreg], by rw [h1], by rw [h1], by rw [h1], ?_,
    by simp [pushStep], by simp [pushStep, pushEndStream], by simp [pushStep, pushEndStream]⟩
  rw [h2.2, h1]

/-- C6 witness: from the initial push observation state, a failing
serialization terminates the subscription and a later runtime callback
delivers nothing. -/
theorem C6_push_error_terminates_witness :
    (pushStep pushInit (.eventData false)).2 =
      [PushEff.errorEnd, PushEff.unsubscribeEvent] ∧
    (pushStep pushInit (.eventData false)).1.listenerRegistered = false ∧
    (pushRun (pushStep pushInit (.eventData false)).1 [.eventData true]).sent = 0 ∧
    (pushStep pushInit .finish).1.listenerRegistered = false := by
  have h := C6_push_error_terminates pushInit [.eventData true] rfl rfl
  exact ⟨h.1, h.2.2.1, h.2.2.2.2.1, h.2.2.2.2.2.2.1⟩

/-! ### Claim C7 -/

/-- A PUT to the read-only sample property with an unsupported content
type. -/
def roPutBadCT : Request :=
  { baseReq with
    method := "PUT"
    segments := ["", "lamp", "properties", "status"]
    contentFormat := some "text/weird"
    hasPayload := true }

/-- C7 counterexample: the claim states that a PUT to a read-only property
is answered BadRequest for any payload and any content type. A PUT
addressing the read-only property with an unsupported content type is
instead answered 4.15 UnsupportedMediaType by the admission check. -/
theorem C7_counterexample_unsupported_ct :
    (sampleSrv.things.lookup "lamp").bind (fun t => t.properties.lookup "status") =
      some roProp ∧
    roProp.readOnly = true ∧
    roPutBadCT.method = "PUT" ∧
    handleRequest sampleSrv roPutBadCT = (.reply "4.15" "Unsupported Media Type", []) := by
  decide

/-- C7 (amended): a PUT addressing a read-only property of a registered
thing is answered 4.00 BadRequest whenever it passes the content-type
admission check (a PUT with an unsupported content type is answered 4.15
instead), and in every case — admitted or not — the `writeProperty`
capability is never invoked. -/
theorem C7_readonly_put_no_write (srv : ServerCtx) (req : Request) (slug : String)
    (thing : Thing) (name : String) (prop : PropertyAffordance) (ct : Option String)
    (hs1 : req.segments[1]? = some slug) (hne : slug ≠ "")
    (hth : srv.things.lookup slug = some thing)
    (hs2 : req.segments[2]? = some "properties")
    (hs3 : req.segments[3]? = some name)
    (hprop : thing.properties.lookup name = some prop)
    (hro : prop.readOnly = true)
    (hm : req.method = "PUT") :
    (admission srv.codec req = .proceed ct →
      handleRequest srv req = (.reply "4.00" "Property readOnly", [.registryLookup slug])) ∧
    Eff.writeProperty name ∉ (handleRequest srv req).2 := by
  have hred : ∀ ct', admission srv.codec req = .proceed ct' →
      handleRequest srv req = (.reply "4.00" "Property readOnly", [.registryLookup slug]) := by
    intro ct' hadm
    rw [handleRequest_of_proceed srv req ct' hadm,
        route_of_lookup srv ct' req slug thing hs1 hne hth,
        routeResource_properties thing slug ct' req name prop hs2 hs3 hprop]
    simp [routeProperty, hm, hro]
  refine ⟨hred ct, ?_⟩
  rcases hA : admission srv.codec req with _ | ct'
  · simp [handleRequest, hA]
  · rw [hred ct' hA]
    simp

/-- A PUT to the read-only sample property with a supported content type. -/
def roPutOkCT : Request :=
  { baseReq with
    method := "PUT"
    segments := ["", "lamp", "properties", "status"]
    contentFormat := some "application/json"
    hasPayload := true }

/-- C7 witness: an admitted PUT to the read-only sample property. -/
theorem C7_readonly_put_no_write_witness :
    handleRequest sampleSrv roPutOkCT =
      (.reply "4.00" "Property readOnly", [.registryLookup "lamp"]) ∧
    Eff.writeProperty "status" ∉ (handleRequest sampleSrv roPutOkCT).2 := by
  have h := C7_readonly_put_no_write sampleSrv roPutOkCT "lamp" sampleThing "status" roProp
    (some "application/json") rfl (by decide) (by decide) rfl rfl (by decide) rfl rfl
  exact ⟨h.1 (by decide), h.2⟩

/-! ### Claim C8 -/

/-- C8: `destroy(thingId)` reports a removal exactly when some registered
entry's thing id matches, removes exactly the matching entries (preserving
the order of the rest), leaves the registry unchanged for an unknown id,
and a second call with the same id reports no removal. -/
theorem C8_destroy_correct (ts : List (String × Thing)) (tid : String) :
    ((destroy ts tid).2 = true ↔ ∃ p ∈ ts, p.2.id = tid) ∧
    (destroy ts tid).1 = ts.filter (fun p => p.2.id != tid) ∧
    ((¬ ∃ p ∈ ts, p.2.id = tid) → (destroy ts tid).1 = ts) ∧
    ((destroy ts tid).2 = true → (destroy (destroy ts tid).1 tid).2 = false) := by
  refine ⟨destroyLoop_found_iff tid ts, destroyLoop_eq_filter tid ts, ?_, ?_⟩
  · intro hno
    rw [show (destroy ts tid).1 = ts.filter (fun p => p.2.id != tid) from
      destroyLoop_eq_filter tid ts]
    apply List.filter_eq_self.mpr
    intro p hp
    simp only [bne_iff_ne, ne_eq, decide_eq_true_eq]
    exact fun h => hno ⟨p, hp, h⟩
  · intro _
    cases hb : (destroy (destroy ts tid).1 tid).2 with
    | false => rfl
    | true =>
      obtain ⟨p, hp, hid⟩ := (destroyLoop_found_iff tid _).mp hb
      rw [show (destroy ts tid).1 = ts.filter (fun p => p.2.id != tid) from
        destroyLoop_eq_filter tid ts, List.mem_filter] at hp
      simp [hid] at hp

/-- C8 witness: destroying the sample thing succeeds once and only once,
and an unknown id leaves the registry unchanged. -/
theorem C8_destroy_correct_witness :
    (destroy sampleSrv.things "urn:lamp").2 = true ∧
    (destroy (destroy sampleSrv.things "urn:lamp").1 "urn:lamp").2 = false ∧
    (destroy sampleSrv.things "urn:other").1 = sampleSrv.things := by
  have h := C8_destroy_correct sampleSrv.things "urn:lamp"
  have h2 := C8_destroy_correct sampleSrv.things "urn:other"
  have hfound : (destroy sampleSrv.things "urn:lamp").2 = true :=
    h.1.mpr ⟨("lamp", sampleThing), by decide, by decide⟩
  exact ⟨hfound, h.2.2.2 hfound, h2.2.2.1 (by decide)⟩

/-! ### Claim C9 -/

/-- C9 counterexample: the claim states the acknowledgement frame echoes
the request's correlation token. The frame is assembled with
`token = Buffer.alloc(0)`: for the concrete registration request whose
token is `[1, 2]`, the sent acknowledgement carries the empty token. -/
theorem C9_counterexample_token_not_echoed :
    (handleRequest sampleSrv obsRegReq).2 =
      [.registryLookup "lamp", .sendAck mkObserveAck, .subscribeEvent "overheated"] ∧
    obsRegReq.token = [1, 2] ∧
    mkObserveAck.token = [] ∧
    mkObserveAck.token ≠ obsRegReq.token := by
  decide

/-- C9 (amended): for every event GET with the observe-register flag, the
server sends an empty acknowledgement frame — code 0.00, ack flag set,
empty payload and an **empty** token — before registering the event
listener with the runtime; the request's correlation token is not echoed in
the acknowledgement but restored on the response packet for the subsequent
notification frames. -/
theorem C9_ack_before_subscribe (srv : ServerCtx) (req : Request) (slug : String)
    (thing : Thing) (name : String) (ev : EventAffordance)
    (hs1 : req.segments[1]? = some slug) (hne : slug ≠ "")
    (hth : srv.things.lookup slug = some thing)
    (hs2 : req.segments[2]? = some "events")
    (hs3 : req.segments[3]? = some name)
    (hev : thing.events.lookup name = some ev)
    (hm : req.method = "GET") (hobs : req.observe = some 0) :
    handleRequest srv req =
      (.eventSubscribed slug name req.token pushInit,
       [.registryLookup slug, .sendAck mkObserveAck, .subscribeEvent name]) ∧
    mkObserveAck = ⟨"0.00", true, false, true, []⟩ := by
  have hadm : admission srv.codec req = .proceed req.contentFormat := by
    unfold admission
    rw [if_neg]
    simp [hm]
  refine ⟨?_, rfl⟩
  rw [handleRequest_of_proceed srv req req.contentFormat hadm,
      route_of_lookup srv req.contentFormat req slug thing hs1 hne hth,
      routeResource_events thing slug req.contentFormat req name ev hs2 hs3 hev]
  simp [routeEvent, hm, hobs]

/-- A GET observe-register request for the sample event with an empty
token. -/
def obsRegPlain : Request :=
  { baseReq with
    segments := ["", "lamp", "events", "overheated"]
    observe := some 0 }

/-- C9 witness: the acknowledgement precedes the listener registration on
concrete data. -/
theorem C9_ack_before_subscribe_witness :
    handleRequest sampleSrv obsRegPlain =
      (.eventSubscribed "lamp" "overheated" [] pushInit,
       [.registryLookup "lamp", .sendAck mkObserveAck, .subscribeEvent "overheated"]) ∧
    mkObserveAck = ⟨"0.00", true, false, true, []⟩ := by
  have h := C9_ack_before_subscribe sampleSrv obsRegPlain "lamp" sampleThing "overheated"
    ⟨[]⟩ rfl (by decide) (by decide) rfl rfl (by decide) rfl rfl
  simpa using h

/-! ### Claim C10 -/

/-- C10 counterexample: the claim states that after an `expose` on a
stopped server, subsequent requests to the thing's path answer NotFound.
Exposing the sample thing while stopped indeed leaves the registry empty,
but a PUT to the thing's path carrying an unsupported content type is then
answered 4.15 UnsupportedMediaType by the admission check — which runs
before the path is even consulted — not 4.04 NotFound. -/
theorem C10_counterexample_not_found :
    (expose (fun s => s) (fun s => s) (fun s => s) ["127.0.0.1"] ["application/json"] (-1)
        [] sampleThing).things = [] ∧
    putBadCT.segments[1]? = some "lamp" ∧
    handleRequest { sampleSrv with things := [] } putBadCT =
      (.reply "4.15" "Unsupported Media Type", []) := by
  decide

/-- C10 (amended): calling `expose` while the server is not running (the
port query reports `-1`) stores nothing in the registry and attaches no
forms to the thing, yet resolves successfully; every subsequent request
addressed to the thing's (absent) slug that passes the PUT/POST
content-type admission check is answered 4.04 NotFound (a PUT/POST with an
unsupported content type is answered 4.15 instead, before the path is
consulted). -/
theorem C10_expose_while_stopped (slugifyF uniqueF encodeF : String → String)
    (addresses offered : List String) (things : List (String × Thing)) (thing : Thing)
    (srv : ServerCtx) (req : Request) (slug : String) (ct : Option String)
    (hsrv : srv.things = things)
    (hnew : things.lookup slug = none)
    (hs1 : req.segments[1]? = some slug) (hne : slug ≠ "")
    (hadm : admission srv.codec req = .proceed ct) :
    expose slugifyF uniqueF encodeF addresses offered (-1) things thing =
      ⟨things, thing, true⟩ ∧
    handleRequest srv req = (.reply "4.04" "Not Found", [.registryLookup slug]) := by
  constructor
  · simp [expose]
  · rw [handleRequest_of_proceed srv req ct hadm]
    simp [route, hs1, hne, hsrv, hnew]

/-- C10 witness: exposing the sample thing on a stopped server changes
nothing and a subsequent GET to its path is answered NotFound. -/
theorem C10_expose_while_stopped_witness :
    expose (fun s => s) (fun s => s) (fun s => s) ["127.0.0.1"] ["application/json"] (-1)
      [] sampleThing = ⟨[], sampleThing, true⟩ ∧
    handleRequest { sampleSrv with things := [] } baseReq =
      (.reply "4.04" "Not Found", [.registryLookup "lamp"]) := by
  exact C10_expose_while_stopped (fun s => s) (fun s => s) (fun s => s) ["127.0.0.1"]
    ["application/json"] [] sampleThing { sampleSrv with things := [] } baseReq "lamp" none
    rfl rfl rfl (by decide) (by decide)

end CoapServer
